import Mathlib

/-!
Verification of the process supervisor, proxy client, streaming bridge and
lifecycle controller implemented in src/src-tauri/src/lib.rs.

The embedding is shallow: each Tauri command becomes a Lean function from its
external inputs (spawn outcome, HTTP response, stream read results) and the
shared state slot to its result, the new slot contents, and the ordered list
of observable side effects (spawns, stdin writes, kills, sleeps, emitted
events).
-/

namespace SearchAds

/-- Opaque handle to a spawned sidecar child process (models CommandChild). -/
abbrev Child := Nat

/-- Observable side effects performed by the supervisor and lifecycle code,
in the order they are performed. -/
inductive SupAction where
  | spawn (c : Child)
  | takeSlot (c : Child)
  | writeStdin (c : Child) (data : String)
  | kill (c : Child)
  | sleepMs (ms : Nat)
  | emit (channel : String) (payload : String)
  deriving DecidableEq, Repr

/-- Outcome of the sidecar-creation and spawn sequence in start_server:
creating the sidecar command can fail, spawning it can fail, or it spawns. -/
inductive SpawnOutcome where
  | sidecarErr (msg : String)
  | spawnErr (msg : String)
  | ok (child : Child)
  deriving DecidableEq, Repr

deriving instance DecidableEq for Except

/-- Result of one supervisor command: the value returned to the caller, the
contents of the shared ServerState slot afterwards, and the actions taken. -/
structure CmdResult where
  ret : Except String String
  slot : Option Child
  actions : List SupAction
  deriving DecidableEq, Repr

/-- Embedding of start_server (src/src-tauri/src/lib.rs lines 244-290).
If the slot already holds a child it returns the no-op message and does
nothing; otherwise a sidecar-command error or spawn error is returned with
the slot untouched, and a successful spawn stores the child in the slot. -/
def start_server (res : SpawnOutcome) (slot : Option Child) : CmdResult :=
  match slot with
  | some c => { ret := Except.ok "Server already running", slot := some c, actions := [] }
  | none =>
    match res with
    | SpawnOutcome.sidecarErr e =>
        { ret := Except.error ("Failed to create sidecar command: " ++ e)
          slot := none, actions := [] }
    | SpawnOutcome.spawnErr e =>
        { ret := Except.error ("Failed to spawn sidecar: " ++ e)
          slot := none, actions := [] }
    | SpawnOutcome.ok c =>
        { ret := Except.ok "Server started successfully"
          slot := some c, actions := [SupAction.spawn c] }

/-- Embedding of stop_server (lines 294-307). The slot is taken first; if a
child was present the sentinel is written to its stdin and, only when that
write fails, the child is killed. The returned value is a success in every
case. The writeFails argument is the outcome of the stdin write. -/
def stop_server (writeFails : Bool) (slot : Option Child) : CmdResult :=
  match slot with
  | some c =>
      { ret := Except.ok "Server stopped"
        slot := none
        actions := [SupAction.takeSlot c, SupAction.writeStdin c "SHUTDOWN\n"] ++
          (if writeFails then [SupAction.kill c] else []) }
  | none => { ret := Except.ok "Server was not running", slot := none, actions := [] }

/-- Embedding of server_status (lines 311-313): true iff the slot is full. -/
def server_status (slot : Option Child) : Bool := slot.isSome

/-- Embedding of the RunEvent Exit branch (lines 378-389). The slot is taken;
if a child was present the sentinel is written (its outcome writeFails is
ignored by the source), the thread sleeps 500 ms, and the child is killed
unconditionally. With an empty slot nothing happens. -/
def exitShutdown (_writeFails : Bool) (slot : Option Child) : Option Child × List SupAction :=
  match slot with
  | some c =>
      (none, [SupAction.takeSlot c, SupAction.writeStdin c "SHUTDOWN\n",
              SupAction.sleepMs 500, SupAction.kill c])
  | none => (slot, [])

/-- Unicode replacement character, used by lossy UTF-8 decoding. -/
def replChar : Char := Char.ofNat 0xFFFD

/-- Lower bound of the first continuation byte admitted after lead byte b
(0xE0 and 0xF0 exclude overlong encodings). -/
def cont1Lo (b : Nat) : Nat := if b = 0xE0 then 0xA0 else if b = 0xF0 then 0x90 else 0x80

/-- Upper bound of the first continuation byte admitted after lead byte b
(0xED excludes surrogates, 0xF4 caps the code space at 0x10FFFF). -/
def cont1Hi (b : Nat) : Nat := if b = 0xED then 0x9F else if b = 0xF4 then 0x8F else 0xBF

/-- Model of the std String from_utf8_lossy decoder used by the source for
stream chunks and for worker stdout and stderr lines: strict UTF-8 decoding
where each maximal invalid subpart is replaced by one replacement character,
matching the error lengths of the std UTF-8 validator. -/
def utf8LossyAux : List Nat → List Char
  | [] => []
  | b :: rest =>
    if b ≤ 0x7F then
      Char.ofNat b :: utf8LossyAux rest
    else if 0xC2 ≤ b ∧ b ≤ 0xDF then
      match rest with
      | [] => [replChar]
      | b1 :: rest1 =>
        if 0x80 ≤ b1 ∧ b1 ≤ 0xBF then
          Char.ofNat ((b - 0xC0) * 0x40 + (b1 - 0x80)) :: utf8LossyAux rest1
        else
          replChar :: utf8LossyAux (b1 :: rest1)
    else if 0xE0 ≤ b ∧ b ≤ 0xEF then
      match rest with
      | [] => [replChar]
      | b1 :: rest1 =>
        if cont1Lo b ≤ b1 ∧ b1 ≤ cont1Hi b then
          match rest1 with
          | [] => [replChar]
          | b2 :: rest2 =>
            if 0x80 ≤ b2 ∧ b2 ≤ 0xBF then
              Char.ofNat ((b - 0xE0) * 0x1000 + (b1 - 0x80) * 0x40 + (b2 - 0x80)) ::
                utf8LossyAux rest2
            else
              replChar :: utf8LossyAux (b2 :: rest2)
        else
          replChar :: utf8LossyAux (b1 :: rest1)
    else if 0xF0 ≤ b ∧ b ≤ 0xF4 then
      match rest with
      | [] => [replChar]
      | b1 :: rest1 =>
        if cont1Lo b ≤ b1 ∧ b1 ≤ cont1Hi b then
          match rest1 with
          | [] => [replChar]
          | b2 :: rest2 =>
            if 0x80 ≤ b2 ∧ b2 ≤ 0xBF then
              match rest2 with
              | [] => [replChar]
              | b3 :: rest3 =>
                if 0x80 ≤ b3 ∧ b3 ≤ 0xBF then
                  Char.ofNat ((b - 0xF0) * 0x40000 + (b1 - 0x80) * 0x1000 +
                      (b2 - 0x80) * 0x40 + (b3 - 0x80)) :: utf8LossyAux rest3
                else
                  replChar :: utf8LossyAux (b3 :: rest3)
            else
              replChar :: utf8LossyAux (b2 :: rest2)
        else
          replChar :: utf8LossyAux (b1 :: rest1)
    else
      replChar :: utf8LossyAux rest

/-- Lossy UTF-8 decoding of a byte sequence into a string. -/
def utf8Lossy (bytes : List Nat) : String := String.mk (utf8LossyAux bytes)

/-- Events delivered on the channel consumed by the monitor task spawned in
start_server; terminated carries the debug-formatted exit status string. -/
inductive CommandEvent where
  | stdout (line : List Nat)
  | stderr (line : List Nat)
  | terminated (status : String)
  | other
  deriving DecidableEq, Repr

/-- Embedding of the monitor task body (lines 265-287): each stdout line is
republished on server-log and each stderr line on server-error after lossy
decoding; a terminated event is republished on server-terminated and the
loop breaks. The task has no access to the ServerState slot. -/
def monitorTask : List CommandEvent → List SupAction
  | [] => []
  | CommandEvent.stdout line :: rest =>
      SupAction.emit "server-log" (utf8Lossy line) :: monitorTask rest
  | CommandEvent.stderr line :: rest =>
      SupAction.emit "server-error" (utf8Lossy line) :: monitorTask rest
  | CommandEvent.terminated st :: _ =>
      [SupAction.emit "server-terminated" st]
  | CommandEvent.other :: rest => monitorTask rest

/-- One interaction with the supervisor subsystem: a start call with a given
spawn outcome, a stop call with a given stdin-write outcome, or the monitor
task processing a batch of command events. -/
inductive SysOp where
  | start (res : SpawnOutcome)
  | stop (writeFails : Bool)
  | monitor (events : List CommandEvent)
  deriving Repr

/-- Effect of one interaction on the shared slot, with the actions taken. -/
def sysStep (slot : Option Child) : SysOp → Option Child × List SupAction
  | SysOp.start res => ((start_server res slot).slot, (start_server res slot).actions)
  | SysOp.stop w => ((stop_server w slot).slot, (stop_server w slot).actions)
  | SysOp.monitor evs => (slot, monitorTask evs)

/-- Sequential composition of interactions, accumulating actions in order. -/
def sysRun (slot : Option Child) : List SysOp → Option Child × List SupAction
  | [] => (slot, [])
  | op :: ops =>
      ((sysRun (sysStep slot op).fst ops).fst,
       (sysStep slot op).snd ++ (sysRun (sysStep slot op).fst ops).snd)

/-- Result of one call to response.chunk() in the stream loop: a chunk of
body bytes, the end of the body, or a read error. -/
inductive ReadResult where
  | chunk (bytes : List Nat)
  | eof
  | readErr (msg : String)
  deriving DecidableEq, Repr

/-- Payload of an event published on a stream channel. -/
inductive StreamEvent where
  | chunk (data : String)
  | done
  | error (msg : String)
  deriving DecidableEq, Repr

/-- Name of the event channel for one correlation id (the source formats
stream-event-<event_id>). -/
def streamChannel (event_id : String) : String := "stream-event-" ++ event_id

/-- Embedding of the background task spawned by api_stream (lines 213-237):
each chunk is lossily decoded and published as a chunk event; end of body
breaks the loop and publishes one done event; a read error publishes one
error event and returns, so everything after it is ignored. An exhausted
read list models a task still blocked on its next read: no event yet. -/
def streamTask (event_id : String) : List ReadResult → List (String × StreamEvent)
  | ReadResult.chunk bytes :: rest =>
      (streamChannel event_id, StreamEvent.chunk (utf8Lossy bytes)) :: streamTask event_id rest
  | ReadResult.eof :: _ => [(streamChannel event_id, StreamEvent.done)]
  | ReadResult.readErr e :: _ => [(streamChannel event_id, StreamEvent.error e)]
  | [] => []

/-- Outcome of sending the initial streaming request: a transport failure,
or a response with its status, its best-effort body text (consulted only on
a non-2xx status, none when unreadable) and the sequence of body reads. -/
inductive SendOutcome where
  | transportErr (msg : String)
  | response (status : Nat) (textRes : Option String) (reads : List ReadResult)
  deriving DecidableEq, Repr

/-- Result of an api_stream call: the value returned to the caller, whether
the HTTP request was sent at all, and every event published on the stream
channel by the spawned background task. -/
structure StreamCallResult where
  ret : Except String Unit
  requestSent : Bool
  events : List (String × StreamEvent)
  deriving DecidableEq, Repr

/-- Model of the str to_uppercase call on the method argument, as a map of
the character-wise uppercasing over the string (every method name involved
is ASCII, where this agrees with Unicode uppercasing). -/
def upper (s : String) : String := String.mk (s.data.map Char.toUpper)

/-- Test for StatusCode is_success: 2xx statuses. -/
def isSuccessStatus (status : Nat) : Bool := decide (200 ≤ status ∧ status ≤ 299)

/-- Display of an HTTP status code inside an error message. The source
formats a reqwest StatusCode, whose Display prints the numeric code followed
by its canonical reason phrase; the model keeps the numeric code, the part
the spec predicates on. -/
def statusDisplay (status : Nat) : String := toString status

/-- Embedding of api_stream (lines 179-240). The method defaults to GET,
is uppercased, and anything other than GET or POST is rejected before the
request is sent and before any event is published. A transport failure or a
non-2xx status is returned as an error with no event; on a 2xx response the
call succeeds and the background task publishes the events of streamTask. -/
def api_stream (method : Option String) (send : SendOutcome) (event_id : String) :
    StreamCallResult :=
  let m := upper (method.getD "GET")
  if m = "GET" ∨ m = "POST" then
    match send with
    | SendOutcome.transportErr e =>
        { ret := Except.error ("Request failed: " ++ e), requestSent := true, events := [] }
    | SendOutcome.response status textRes reads =>
        if isSuccessStatus status then
          { ret := Except.ok (), requestSent := true, events := streamTask event_id reads }
        else
          { ret := Except.error ("HTTP " ++ statusDisplay status ++ ": " ++ textRes.getD "")
            requestSent := true, events := [] }
  else
    { ret := Except.error ("Unsupported method: " ++ m), requestSent := false, events := [] }

/-- Opaque model of a parsed serde_json value; the claims never inspect its
structure, only whether parsing succeeded. -/
structure JsonVal where
  raw : String
  deriving DecidableEq, Repr

/-- Outcome of sending a unary proxy request: a transport failure, or a
response with its status, its best-effort body text (consulted only on a
non-2xx status, none when unreadable) and its JSON parse result (consulted
only on a 2xx status). -/
inductive HttpOutcome where
  | transportErr (msg : String)
  | response (status : Nat) (textRes : Option String) (jsonRes : Except String JsonVal)
  deriving DecidableEq, Repr

/-- Embedding of api_get (lines 29-52); api_post, api_put, api_patch and
api_delete classify their response identically. A transport failure maps to
a request-failed error; a non-2xx status maps to an HTTP error carrying the
status and the body text read best-effort, defaulting to the empty string;
on a 2xx status the JSON parse result decides between a parse error and the
parsed value. -/
def api_get (outcome : HttpOutcome) : Except String JsonVal :=
  match outcome with
  | HttpOutcome.transportErr e => Except.error ("Request failed: " ++ e)
  | HttpOutcome.response status textRes jsonRes =>
      if !(isSuccessStatus status) then
        Except.error ("HTTP " ++ statusDisplay status ++ ": " ++ textRes.getD "")
      else
        match jsonRes with
        | Except.ok v => Except.ok v
        | Except.error e => Except.error ("Failed to parse JSON: " ++ e)

/-- Structured proxy error taxonomy as worded in spec section 4.2. -/
inductive ProxyError where
  | transport (msg : String)
  | http (status : Nat) (bodyText : String)
  | decodeErr (msg : String)
  deriving DecidableEq, Repr

/-- Classification of a unary proxy outcome following the wording of spec
section 4.2: transport-level failure to transport, non-2xx status to http
with the best-effort body text (empty string if unreadable), a 2xx body
that fails to parse to decodeErr, otherwise the parsed JSON value. -/
def proxyClassify (outcome : HttpOutcome) : Except ProxyError JsonVal :=
  match outcome with
  | HttpOutcome.transportErr e => Except.error (ProxyError.transport e)
  | HttpOutcome.response status textRes jsonRes =>
      if !(isSuccessStatus status) then
        Except.error (ProxyError.http status (textRes.getD ""))
      else
        match jsonRes with
        | Except.ok v => Except.ok v
        | Except.error e => Except.error (ProxyError.decodeErr e)

/-- Rendering of a structured proxy error as the message string the source
actually returns. -/
def renderProxyError : ProxyError → String
  | ProxyError.transport m => "Request failed: " ++ m
  | ProxyError.http s t => "HTTP " ++ statusDisplay s ++ ": " ++ t
  | ProxyError.decodeErr m => "Failed to parse JSON: " ++ m

/-- C1: while the worker is already running, every start call returns the
no-op already-running success message, leaves the state slot unchanged and
performs no action at all, so no second process is spawned; consequently any
sequence of start calls from a running state leaves the slot holding the
same child and spawns nothing. -/
theorem C1_start_idempotent_while_running :
    (∀ (res : SpawnOutcome) (c : Child),
      start_server res (some c) =
        { ret := Except.ok "Server already running", slot := some c, actions := [] }) ∧
    (∀ (c : Child) (ress : List SpawnOutcome),
      sysRun (some c) (ress.map SysOp.start) = (some c, [])) := by
  refine ⟨fun res c => rfl, fun c ress => ?_⟩
  induction ress with
  | nil => rfl
  | cons r rs ih => simp [sysRun, sysStep, start_server, ih]

/-- C2 counterexample: from the empty slot a successful start stores child 7,
then the background monitor observes the worker terminate and republishes it
on the server-terminated channel; yet the slot still holds child 7 and
server_status still returns true, contradicting the claim that once the
monitor observes and republishes the termination, status no longer reports
the worker as running. -/
theorem C2_counterexample :
    sysRun none [SysOp.start (SpawnOutcome.ok 7),
        SysOp.monitor [CommandEvent.terminated "ExitStatus(0)"]] =
      (some 7, [SupAction.spawn 7, SupAction.emit "server-terminated" "ExitStatus(0)"]) ∧
    server_status (sysRun none [SysOp.start (SpawnOutcome.ok 7),
        SysOp.monitor [CommandEvent.terminated "ExitStatus(0)"]]).fst = true :=
  ⟨rfl, rfl⟩

/-- C2 (amended): after a successful start the call reports success and
status returns true; monitor activity never changes the state slot, so
status keeps reporting true even after the monitor republishes the worker
termination; and immediately after any stop call, status returns false. -/
theorem C2_status_lifecycle :
    (∀ (c : Child),
      (start_server (SpawnOutcome.ok c) none).ret = Except.ok "Server started successfully" ∧
        server_status (start_server (SpawnOutcome.ok c) none).slot = true) ∧
    (∀ (slot : Option Child) (evs : List CommandEvent),
      (sysStep slot (SysOp.monitor evs)).fst = slot) ∧
    (∀ (w : Bool) (slot : Option Child),
      server_status (stop_server w slot).slot = false) := by
  refine ⟨fun c => ⟨rfl, rfl⟩, fun slot evs => rfl, fun w slot => ?_⟩
  cases slot <;> rfl

/-- C3 counterexample: a body consisting of one empty chunk followed by end
of body makes the task publish a chunk event (with empty payload) before the
done event, contradicting the claim that a chunk event is published only for
a non-empty chunk. -/
theorem C3_counterexample :
    streamTask "id0" [ReadResult.chunk [], ReadResult.eof] =
      [(streamChannel "id0", StreamEvent.chunk ""), (streamChannel "id0", StreamEvent.done)] := by
  decide

/-- C3 (amended): for a body of N chunks followed by a normal end of body,
the task publishes exactly N chunk events on the channel of the correlation
id, one per received chunk (empty chunks included) in receipt order, each
payload the lossy UTF-8 decoding of the chunk bytes, followed by exactly one
done event and no error event. -/
theorem C3_stream_success_events (eid : String) (chunks : List (List Nat)) :
    streamTask eid (chunks.map ReadResult.chunk ++ [ReadResult.eof]) =
      chunks.map (fun c => (streamChannel eid, StreamEvent.chunk (utf8Lossy c))) ++
        [(streamChannel eid, StreamEvent.done)] := by
  induction chunks with
  | nil => rfl
  | cons c cs ih => simp [streamTask, ih]

/-- C4: for a body of K chunks followed by a read error, the task publishes
exactly K chunk events in receipt order followed by exactly one error event
carrying the failure message, and nothing afterwards: whatever reads might
follow the error are never consumed, so no further chunk, done or error
event is published on that channel. -/
theorem C4_stream_error_events (eid : String) (chunks : List (List Nat)) (msg : String)
    (rest : List ReadResult) :
    streamTask eid (chunks.map ReadResult.chunk ++ ReadResult.readErr msg :: rest) =
      chunks.map (fun c => (streamChannel eid, StreamEvent.chunk (utf8Lossy c))) ++
        [(streamChannel eid, StreamEvent.error msg)] := by
  induction chunks with
  | nil => rfl
  | cons c cs ih => simp [streamTask, ih]

/-- C5: the unary proxy classifies every outcome exactly as the spec's
taxonomy rendered to message strings: transport failure to a transport
error, non-2xx status to an HTTP error carrying the status and best-effort
body text (empty if unreadable), unparsable 2xx body to a decode error, and
otherwise the parsed JSON value; in particular a 404 whose body is the
detail JSON text yields the HTTP error with that body verbatim, never a
parsed-JSON success, even though the body would parse. -/
theorem C5_api_get_classification :
    (∀ (o : HttpOutcome), api_get o = (proxyClassify o).mapError renderProxyError) ∧
    api_get (HttpOutcome.response 404 (some "\x7b\"detail\":\"not found\"\x7d")
        (Except.ok { raw := "\x7b\"detail\":\"not found\"\x7d" })) =
      Except.error ("HTTP 404: \x7b\"detail\":\"not found\"\x7d") := by
  constructor
  · intro o
    cases o with
    | transportErr e => rfl
    | response status textRes jsonRes =>
        cases h : isSuccessStatus status with
        | true => cases jsonRes <;> simp [api_get, proxyClassify, h, Except.mapError,
            renderProxyError]
        | false => simp [api_get, proxyClassify, h, Except.mapError, renderProxyError]
  · decide

/-- C6: stop never returns an error in any state: with an empty slot it
returns the not-running message having done nothing, and with a running
child a failing sentinel write is escalated to an immediate kill while the
call still returns the success message. -/
theorem C6_stop_never_errors :
    (∀ (w : Bool) (slot : Option Child), ∃ msg, (stop_server w slot).ret = Except.ok msg) ∧
    (∀ (w : Bool), stop_server w none =
      { ret := Except.ok "Server was not running", slot := none, actions := [] }) ∧
    (∀ (c : Child), stop_server true (some c) =
      { ret := Except.ok "Server stopped", slot := none
        actions := [SupAction.takeSlot c, SupAction.writeStdin c "SHUTDOWN\n",
          SupAction.kill c] }) := by
  refine ⟨fun w slot => ?_, fun w => rfl, fun c => rfl⟩
  cases slot with
  | some c => exact ⟨"Server stopped", rfl⟩
  | none => exact ⟨"Server was not running", rfl⟩

/-- C7: when the slot is empty and creating or spawning the sidecar fails,
start returns the corresponding error to the caller, the slot stays empty
(the worker remains stopped) and no action is performed, so nothing is
spawned and no retry happens. -/
theorem C7_spawn_failure_reported :
    (∀ (e : String), start_server (SpawnOutcome.spawnErr e) none =
      { ret := Except.error ("Failed to spawn sidecar: " ++ e), slot := none, actions := [] }) ∧
    (∀ (e : String), start_server (SpawnOutcome.sidecarErr e) none =
      { ret := Except.error ("Failed to create sidecar command: " ++ e), slot := none
        actions := [] }) :=
  ⟨fun _ => rfl, fun _ => rfl⟩

/-- C8: on the final exit signal with a worker present, the handle is taken,
the newline-terminated SHUTDOWN sentinel is written to its stdin, the thread
sleeps 500 ms and the child is killed, in that order; the actions do not
depend on whether the sentinel write succeeded; with no worker present
nothing is done. -/
theorem C8_exit_unconditional_kill :
    (∀ (w : Bool) (c : Child), exitShutdown w (some c) =
      (none, [SupAction.takeSlot c, SupAction.writeStdin c "SHUTDOWN\n",
              SupAction.sleepMs 500, SupAction.kill c])) ∧
    (∀ (w w' : Bool) (slot : Option Child), exitShutdown w slot = exitShutdown w' slot) ∧
    (∀ (w : Bool), exitShutdown w none = (none, [])) := by
  refine ⟨fun w c => rfl, fun w w' slot => ?_, fun w => rfl⟩
  cases slot <;> rfl

/-- C9: the stream method argument defaults to GET when absent, the call is
insensitive to anything but the uppercased method, and any uppercased method
other than GET or POST returns the unsupported-method error with the request
never sent and no event ever published on the channel. -/
theorem C9_stream_method_handling :
    (∀ (send : SendOutcome) (eid : String),
      api_stream none send eid = api_stream (some "GET") send eid) ∧
    (∀ (m m' : String) (send : SendOutcome) (eid : String),
      upper m = upper m' →
      api_stream (some m) send eid = api_stream (some m') send eid) ∧
    (∀ (m : String) (send : SendOutcome) (eid : String),
      upper m ≠ "GET" → upper m ≠ "POST" →
      api_stream (some m) send eid =
        { ret := Except.error ("Unsupported method: " ++ upper m)
          requestSent := false, events := [] }) := by
  refine ⟨fun send eid => rfl, fun m m' send eid h => ?_, fun m send eid h1 h2 => ?_⟩
  · simp only [api_stream, Option.getD]
    rw [h]
  · have h3 : ¬(upper m = "GET" ∨ upper m = "POST") := by
      rintro (h | h)
      · exact h1 h
      · exact h2 h
    simp only [api_stream, Option.getD, if_neg h3]

/-- C9 witness: the DELETE method (lowercase on input) is rejected with no
request sent and no event published, and a lowercase get call behaves like
an uppercase GET call. -/
theorem C9_stream_method_handling_witness :
    api_stream (some "delete") (SendOutcome.transportErr "x") "id" =
      { ret := Except.error "Unsupported method: DELETE"
        requestSent := false, events := [] } ∧
    api_stream (some "get") (SendOutcome.transportErr "x") "id" =
      api_stream (some "GET") (SendOutcome.transportErr "x") "id" := by
  constructor
  · exact (C9_stream_method_handling.2.2 "delete" (SendOutcome.transportErr "x") "id"
      (by decide) (by decide)).trans (by decide)
  · exact C9_stream_method_handling.2.1 "get" "GET" (SendOutcome.transportErr "x") "id"
      (by decide)

/-- C10: stop always leaves the slot empty, so status reports false
immediately after any stop call returns, even though the process may still
be alive; the action trace of a stop on a running child begins with taking
the slot and only then the sentinel write; and status is true exactly when
the slot holds a child handle. -/
theorem C10_stop_empties_slot_first :
    (∀ (w : Bool) (slot : Option Child), (stop_server w slot).slot = none) ∧
    (∀ (w : Bool) (slot : Option Child), server_status (stop_server w slot).slot = false) ∧
    (∀ (w : Bool) (c : Child), ∃ rest, (stop_server w (some c)).actions =
        SupAction.takeSlot c :: SupAction.writeStdin c "SHUTDOWN\n" :: rest) ∧
    (∀ (slot : Option Child), server_status slot = slot.isSome) := by
  refine ⟨fun w slot => ?_, fun w slot => ?_,
    fun w c => ⟨if w then [SupAction.kill c] else [], rfl⟩, fun slot => rfl⟩
  · cases slot <;> rfl
  · cases slot <;> rfl

end SearchAds
